import Mathlib

/-!
Verification of the semantic retrieval engine of Drona.ai.

Shallow embedding of:
  * `split_text_into_chunks` from `drona_ai/main.py` (the Chunker),
  * `VectorStore` from `drona_ai/rag/vector_store.py` (dual-backend store),
  * the relevant outcomes of `EndeeClient` calls from `drona_ai/rag/endee_client.py`
    (remote calls are modelled by explicit outcome oracles, since the client
    only wraps HTTP requests and reports success / failure / exception).

Python strings are modelled as `List Char`, numpy float vectors as `List ℚ`
for the stored data (decidable equality) with the cosine-similarity arithmetic
carried out in `ℝ` (numpy's `linalg.norm` is a square root).
-/

namespace Drona

/-! ### Chunker: `split_text_into_chunks` (main.py, lines 274-301) -/

/-- Embeds Python `str.strip()`: drop whitespace from both ends. -/
def pyStrip (l : List Char) : List Char :=
  ((l.dropWhile Char.isWhitespace).reverse.dropWhile Char.isWhitespace).reverse

/-- Embeds Python `chunk.rfind('.')`: index of the last occurrence of `c`,
`-1` when absent (hence the `ℤ` result, mirroring Python's `int`). -/
def rfind (l : List Char) (c : Char) : ℤ :=
  match List.findIdx? (fun x => x = c) l.reverse with
  | none => -1
  | some j => ((l.length - 1 - j : ℕ) : ℤ)

/-- Embeds main.py lines 285-290: if the window does not reach the end of the
text and the last period of the current chunk lies strictly past
`chunk_size // 2`, the window end moves to just after that period; otherwise
the end is unchanged.  `e0 = start + chunk_size` is the unadjusted end. -/
def adjustEnd (text : List Char) (chunk_size start e0 : ℕ) : ℕ :=
  if e0 < text.length then
    if ((chunk_size / 2 : ℕ) : ℤ) < rfind ((text.drop start).take (e0 - start)) '.' then
      start + (rfind ((text.drop start).take (e0 - start)) '.').toNat + 1
    else e0
  else e0

/-- Embeds main.py lines 294-299: `start = end - overlap; if start <= 0: start = end`.
Python computes `end - overlap` in `ℤ`; here the subtraction is ℕ-truncated,
which is equivalent because the guard `start <= 0` fires exactly when the
Python value is ≤ 0, i.e. exactly when the truncated value is 0. -/
def nextStart (text : List Char) (chunk_size overlap start : ℕ) : ℕ :=
  if adjustEnd text chunk_size start (start + chunk_size) - overlap ≤ 0 then
    adjustEnd text chunk_size start (start + chunk_size)
  else adjustEnd text chunk_size start (start + chunk_size) - overlap

/-- Embeds the `while start < text_length` loop of `split_text_into_chunks`
(main.py lines 279-299).  The source loop does not always terminate, so the
embedding is fuel-indexed: `none` means the fuel ran out before the loop
exited.  Each iteration appends `text[start:end].strip()` (with `end` the
adjusted window end) and moves `start` to `nextStart`. -/
def chunksLoop (text : List Char) (chunk_size overlap : ℕ) :
    ℕ → ℕ → List (List Char) → Option (List (List Char))
  | 0, _, _ => none
  | fuel + 1, start, acc =>
    if start < text.length then
      chunksLoop text chunk_size overlap fuel
        (nextStart text chunk_size overlap start)
        (acc ++ [pyStrip ((text.drop start).take
          (adjustEnd text chunk_size start (start + chunk_size) - start))])
    else some acc

/-- Embeds `split_text_into_chunks(text, chunk_size, overlap)` (main.py
lines 274-301), fuel-indexed: `some chunks` means the Python loop terminates
with that chunk list. -/
def split_text_into_chunks (text : List Char) (chunk_size overlap fuel : ℕ) :
    Option (List (List Char)) :=
  chunksLoop text chunk_size overlap fuel 0 []

/-! ### Vector store data model (vector_store.py) -/

/-- Python metadata dict, modelled as an ordered string-keyed association list. -/
abbrev Metadata := List (String × String)

/-- Outcome of the construction-time connection attempt
(`_try_connect_endee`, vector_store.py lines 58-78): an exception anywhere in
the `try` block, a `health_check()` returning `False`, or a `health_check()`
returning `True` followed by `create_index` returning `createOk`
(`EndeeClient.create_index` catches its own exceptions and returns a bool,
endee_client.py lines 40-58). -/
inductive ConnectOutcome
  | exn
  | healthFalse
  | healthTrue (createOk : Bool)
deriving DecidableEq

/-- Embeds `_try_connect_endee` (vector_store.py lines 58-78); returns
`(endee_available, endee_client is not None)`.  On the exception path the
client is reset to `None`; after a failed health check the client object
created on line 61 is kept.  The boolean returned by `create_index` (line 66)
is ignored by the source: `endee_available` is set to `True` whenever
`health_check()` succeeded. -/
def try_connect_endee : ConnectOutcome → Bool × Bool
  | .exn => (false, false)
  | .healthFalse => (false, true)
  | .healthTrue _ => (true, true)

/-- State of a `VectorStore` instance (vector_store.py lines 27-56).
`endee_client` records whether `self.endee_client` is not `None`.
Vectors are `List ℚ`; `id_to_index` is the dict mapping Endee vector ids to
positions in `texts`. -/
structure VectorStore where
  index_name : String
  dimension : ℕ
  endee_available : Bool
  endee_client : Bool
  texts : List String
  embeddings : List (List ℚ)
  metadata : List Metadata
  id_counter : ℕ
  id_to_index : List (String × ℕ)
deriving DecidableEq

/-- Embeds `VectorStore.__init__` (vector_store.py lines 28-56): connect to
Endee when `use_endee`, then initialise the empty in-memory storage. -/
def mkVectorStore (index_name : String) (dimension : ℕ) (use_endee : Bool)
    (conn : ConnectOutcome) : VectorStore :=
  { index_name := index_name
    dimension := dimension
    endee_available := if use_endee then (try_connect_endee conn).1 else false
    endee_client := if use_endee then (try_connect_endee conn).2 else false
    texts := []
    embeddings := []
    metadata := []
    id_counter := 0
    id_to_index := [] }

/-- Embeds `_generate_id` (vector_store.py lines 80-84).  The source hashes
`f"{text}_{counter}"` with MD5 and keeps 16 hex chars; the hash step is
abstracted to the (injective) pre-hash string, which no claim depends on. -/
def generate_id (text : String) (counter : ℕ) : String :=
  text ++ "_" ++ toString counter

/-- Python dict assignment `m[k] = v`: overwrite an existing key in place,
else append, preserving insertion order. -/
def updateAssoc (m : List (String × ℕ)) (k : String) (v : ℕ) : List (String × ℕ) :=
  if m.any (fun p => p.1 = k) then
    m.map (fun p => if p.1 = k then (k, v) else p)
  else m ++ [(k, v)]

/-- Python dict lookup `m[k]` guarded by `k in m`. -/
def lookupAssoc (m : List (String × ℕ)) (k : String) : Option ℕ :=
  (m.find? (fun p => p.1 = k)).map Prod.snd

/-- Outcome of a remote `insert_vectors` call: the client returns `True` or
`False` (it catches its own network exceptions, endee_client.py lines 60-82),
or the call raises (caught by the store's own `try`/`except`). -/
inductive RemoteInsert
  | ok
  | failed
  | exn
deriving DecidableEq

/-- Embeds `add_text` (vector_store.py lines 86-110).  The record is appended
to the in-memory lists unconditionally; when Endee is available an id is
generated, the id-to-index mapping is stored (line 104, before the remote
call), and `insert_vectors` is attempted.  Every remote outcome — success,
`False`, or an exception — leaves the state identical, because the
`except` clause only prints (lines 108-110); hence the outcome parameter is
unused.  Note `metadata if metadata else {}` (line 91) stores `{}` for both
`None` and `{}`, which `md.getD []` reproduces. -/
def add_text (s : VectorStore) (text : String) (embedding : List ℚ)
    (md : Option Metadata) (_remote : RemoteInsert) : VectorStore :=
  let s1 : VectorStore :=
    { s with
      texts := s.texts ++ [text]
      embeddings := s.embeddings ++ [embedding]
      metadata := s.metadata ++ [md.getD []] }
  if s1.endee_available && s1.endee_client then
    { s1 with
      id_counter := s1.id_counter + 1
      id_to_index := updateAssoc s1.id_to_index (generate_id text s1.id_counter) s.texts.length }
  else s1

/-- The id-assignment loop of `add_texts` (vector_store.py lines 130-140):
walk `zip(texts, embeddings)`, generate an id per pair, and map it to
`start_index + idx`; returns the updated map and counter. -/
def add_mappings_loop (m : List (String × ℕ)) (counter : ℕ)
    (pairs : List (String × List ℚ)) (pos : ℕ) : List (String × ℕ) × ℕ :=
  match pairs with
  | [] => (m, counter)
  | (t, _) :: rest =>
    add_mappings_loop (updateAssoc m (generate_id t counter) pos) (counter + 1) rest (pos + 1)

/-- Embeds `add_texts` (vector_store.py lines 112-155).  Missing metadata
becomes one empty dict per text (line 116); the in-memory lists are extended
unconditionally (lines 122-124); when Endee is available, ids are assigned
and mapped, and the batch insert outcome (`True`, `False`, or an exception)
only changes what is printed (lines 143-151), never the state. -/
def add_texts (s : VectorStore) (texts : List String) (embeddings : List (List ℚ))
    (mds : Option (List Metadata)) (_remote : RemoteInsert) : VectorStore :=
  let s1 : VectorStore :=
    { s with
      texts := s.texts ++ texts
      embeddings := s.embeddings ++ embeddings
      metadata := s.metadata ++ mds.getD (List.replicate texts.length []) }
  if s1.endee_available && s1.endee_client then
    { s1 with
      id_to_index := (add_mappings_loop s1.id_to_index s1.id_counter (texts.zip embeddings) s.texts.length).1
      id_counter := (add_mappings_loop s1.id_to_index s1.id_counter (texts.zip embeddings) s.texts.length).2 }
  else s1

/-- Embeds `clear` (vector_store.py lines 261-271): the three storage lists
and the id counter are reset, but `id_to_index` is left untouched. -/
def clear (s : VectorStore) : VectorStore :=
  { s with texts := [], embeddings := [], metadata := [], id_counter := 0 }

/-- Embeds `count` (vector_store.py lines 235-236). -/
def count (s : VectorStore) : ℕ := s.texts.length

/-- Embeds `is_using_endee` (vector_store.py lines 238-239). -/
def is_using_endee (s : VectorStore) : Bool := s.endee_available

/-! ### Cosine similarity and in-memory search (vector_store.py lines 199-233) -/

/-- Embeds `np.linalg.norm(v)`: square root of the sum of squares. -/
noncomputable def pyNorm (v : List ℚ) : ℝ :=
  Real.sqrt ((v.map (fun x : ℚ => ((x : ℝ)) ^ 2)).sum)

/-- L2 normalization `v / np.linalg.norm(v)` (elementwise). -/
noncomputable def normalizeVec (v : List ℚ) : List ℝ :=
  v.map (fun x : ℚ => (x : ℝ) / pyNorm v)

/-- Dot product of two real vectors. -/
noncomputable def dotR (a b : List ℝ) : ℝ :=
  (List.zipWith (fun x y => x * y) a b).sum

/-- Embeds `_cosine_similarity` (vector_store.py lines 222-233): each stored
vector is normalized and dotted with the normalized query, producing one
similarity per stored row. -/
noncomputable def cosine_similarity (q : List ℚ) (vs : List (List ℚ)) : List ℝ :=
  vs.map (fun v => dotR (normalizeVec v) (normalizeVec q))

/-- Contract of `np.argsort(similarities)` (vector_store.py line 209): some
permutation of `range(len(similarities))` that lists the similarities in
ascending order.  NumPy's default `kind='quicksort'` is documented as not
stable, so the relative order of equal similarities is unspecified — any
list satisfying this predicate is a possible return value, and nothing
more is guaranteed. -/
def argsortSpec (sims : List ℝ) (idxs : List ℕ) : Prop :=
  idxs.Perm (List.range sims.length) ∧
    (idxs.map (fun i => sims.getD i 0)).Pairwise (fun a b => a ≤ b)

/-- Embeds `_search_in_memory` (vector_store.py lines 199-220): the program
computes the similarities, asks `np.argsort` for an ascending index
permutation, reverses and truncates it (`[::-1][:top_k]`, line 209), and
collects `(text, score, metadata)` per selected index.  Because the argsort
tie order is unspecified (see `argsortSpec`), the argsort return value is an
explicit oracle parameter, in the same style as the remote-call outcome
oracles; faithful runs are those whose `argsort_result` satisfies
`argsortSpec`.  Indices produced by argsort are always in range, so total
`getD` access is faithful. -/
noncomputable def search_in_memory (s : VectorStore) (argsort_result : List ℕ)
    (q : List ℚ) (top_k : ℕ) : List (String × ℝ × Metadata) :=
  ((argsort_result.reverse).take top_k).map (fun i =>
    (s.texts.getD i "", (cosine_similarity q s.embeddings).getD i 0, s.metadata.getD i []))

/-! ### The dual-backend `search` (vector_store.py lines 157-197) -/

/-- Outcome of the remote `EndeeClient.search` call: an exception, or a
returned value — `None` or a list of `(id, score)` items (the client itself
returns `None` on any network/parse failure, endee_client.py lines 84-129). -/
inductive RemoteSearch
  | exn
  | ret (r : Option (List (String × ℝ)))

/-- The result-mapping loop of `search` (vector_store.py lines 179-189):
for each remote item, ids present in `id_to_index` are resolved to
`self.texts[idx]` / `self.metadata[idx]` — an out-of-range index raises
(`IndexError`, modelled as `.error ()`); unknown ids are skipped. -/
def map_endee_go (s : VectorStore) :
    List (String × ℝ) → List (String × ℝ × Metadata) → Except Unit (List (String × ℝ × Metadata))
  | [], acc => .ok acc
  | (vid, score) :: rest, acc =>
    match lookupAssoc s.id_to_index vid with
    | some idx =>
      if idx < s.texts.length then
        if idx < s.metadata.length then
          map_endee_go s rest (acc ++ [(s.texts.getD idx "", score, s.metadata.getD idx [])])
        else .error ()
      else .error ()
    | none => map_endee_go s rest acc

/-- Embeds the mapping of `endee_results[:top_k]` (vector_store.py line 180)
through the loop of lines 181-189. -/
def map_endee_results (s : VectorStore) (items : List (String × ℝ)) (top_k : ℕ) :
    Except Unit (List (String × ℝ × Metadata)) :=
  map_endee_go s (items.take top_k) []

/-- Embeds `search` (vector_store.py lines 157-197): empty store returns `[]`
immediately; when Endee is available the remote path is tried — an exception
(including an `IndexError` inside the mapping loop, which the `except` on
line 193 also catches), a `None`/empty reply, or zero mapped results all fall
back to `_search_in_memory`; a non-empty mapped result list is returned.
`argsort_result` is the argsort oracle handed to the in-memory fallback.
The method reads but never writes the store state. -/
noncomputable def search (s : VectorStore) (remote : RemoteSearch)
    (argsort_result : List ℕ) (q : List ℚ) (top_k : ℕ) :
    List (String × ℝ × Metadata) :=
  if s.texts.length = 0 then []
  else if s.endee_available && s.endee_client then
    match remote with
    | .exn => search_in_memory s argsort_result q top_k
    | .ret none => search_in_memory s argsort_result q top_k
    | .ret (some items) =>
      if 0 < items.length then
        match map_endee_results s items top_k with
        | .error _ => search_in_memory s argsort_result q top_k
        | .ok results =>
          if results.length ≠ 0 then results
          else search_in_memory s argsort_result q top_k
      else search_in_memory s argsort_result q top_k
  else search_in_memory s argsort_result q top_k

/-- The invariant the id map is expected to maintain: every stored position
is a valid index into `texts`. -/
def id_index_invariant (s : VectorStore) : Prop :=
  ∀ p ∈ s.id_to_index, p.2 < s.texts.length

/-- A store whose construction-time connection succeeded (health check OK,
`create_index` OK): `endee_available = true`. -/
def connectedStore : VectorStore := mkVectorStore "drona_ai" 384 true (.healthTrue true)

/-- A connected store holding one record inserted while connected, so the
remote id `"hello_0"` maps to local position 0. -/
def staleStore : VectorStore := add_text connectedStore "hello" [1] none .ok

/-- An in-memory store with two records carrying identical embeddings
(`"a"` inserted before `"b"`), used to exhibit the tie-break order. -/
def c8Store : VectorStore :=
  add_text (add_text (mkVectorStore "demo" 2 false .exn) "a" [1, 0] none .ok)
    "b" [1, 0] none .ok

/-- Input on which the chunking loop never terminates: nine `a`s, a period,
then five `x`s (length 15). -/
def c5FailText : List Char := "aaaaaaaaa.xxxxx".toList

theorem chunksLoop_succ (text : List Char) (cs ov fuel start : ℕ) (acc : List (List Char)) :
    chunksLoop text cs ov (fuel + 1) start acc =
      if start < text.length then
        chunksLoop text cs ov fuel (nextStart text cs ov start)
          (acc ++ [pyStrip ((text.drop start).take
            (adjustEnd text cs start (start + cs) - start))])
      else some acc := rfl

/-- C2 amended claim.  When the text is nonempty and fits in a window even
after reserving the overlap (`length + overlap ≤ chunk_size`), the loop runs
exactly once and returns the trimmed input as the single chunk. -/
theorem c2_short_text_single_chunk (text : List Char) (chunk_size overlap fuel : ℕ)
    (hpos : 0 < text.length) (hfit : text.length + overlap ≤ chunk_size)
    (hfuel : 2 ≤ fuel) :
    split_text_into_chunks text chunk_size overlap fuel = some [pyStrip text] := by
  obtain ⟨f, rfl⟩ : ∃ f, fuel = f + 1 + 1 := ⟨fuel - 2, by omega⟩
  have hAdj : adjustEnd text chunk_size 0 (0 + chunk_size) = 0 + chunk_size := by
    unfold adjustEnd
    rw [if_neg (by omega)]
  have hchunk : (text.drop 0).take (adjustEnd text chunk_size 0 (0 + chunk_size) - 0) = text := by
    rw [hAdj]
    simpa using List.take_of_length_le (by omega)
  have hns : nextStart text chunk_size overlap 0 = chunk_size - overlap := by
    unfold nextStart
    rw [hAdj, if_neg (by omega)]
    omega
  unfold split_text_into_chunks
  rw [chunksLoop_succ, if_pos hpos, hchunk, hns, chunksLoop_succ,
    if_neg (by omega)]
  simp

/-- C2 witness: the nonempty text "hi" (length 2) with `chunk_size = 10`,
`overlap = 5` yields exactly the single trimmed chunk. -/
theorem c2_short_text_single_chunk_witness :
    split_text_into_chunks "hi".toList 10 5 2 = some [pyStrip "hi".toList] :=
  c2_short_text_single_chunk "hi".toList 10 5 2 (by decide) (by decide) (by decide)

/-- C2 counterexample: "abcdefgh" has length 8 < chunk_size = 10, yet with
`overlap = 5` the loop re-enters at `start = 5` and returns **two** chunks,
refuting "every text shorter than chunk_size yields exactly one chunk". -/
theorem c2_counterexample :
    ("abcdefgh".toList).length < 10 ∧
      split_text_into_chunks "abcdefgh".toList 10 5 3 =
        some ["abcdefgh".toList, "fgh".toList] := by
  constructor
  · decide
  · decide

theorem c5_step (fuel : ℕ) (acc : List (List Char)) :
    chunksLoop c5FailText 10 9 (fuel + 1) 1 acc =
      chunksLoop c5FailText 10 9 fuel 1 (acc ++ ["aaaaaaaa.".toList]) := rfl

theorem c5_stuck : ∀ (fuel : ℕ) (acc : List (List Char)),
    chunksLoop c5FailText 10 9 fuel 1 acc = none
  | 0, _ => rfl
  | fuel + 1, acc => by
    rw [c5_step]
    exact c5_stuck fuel _

/-- C5: with `chunk_size = 10`, `overlap = 9` (so `0 ≤ overlap < chunk_size`)
on the text `"aaaaaaaaa.xxxxx"`, the window start gets stuck at 1 forever:
the adjusted end is always 10, the next start is always `10 - 9 = 1`, and the
progress guard (`start <= 0`, main.py line 298) never fires because 1 > 0.
The loop therefore never terminates — the fuel-indexed embedding returns
`none` for every fuel, refuting guaranteed termination. -/
theorem c5_chunking_diverges (fuel : ℕ) :
    split_text_into_chunks c5FailText 10 9 fuel = none := by
  cases fuel with
  | zero => rfl
  | succ f =>
    have h1 : split_text_into_chunks c5FailText 10 9 (f + 1) =
        chunksLoop c5FailText 10 9 f 1 ["aaaaaaaaa.".toList] := rfl
    rw [h1]
    exact c5_stuck f _

/-! ### Backend state claims (C1, C4) -/

/-- C1 amended: a failing remote insert does **not** degrade the backend
state — no outcome of `insert_vectors` (success, `False`, or an exception)
ever modifies `endee_available`, for `add_text` or `add_texts`; `search`
cannot modify state at all (it is a pure read).  The state is fixed at
construction for the lifetime of the store. -/
theorem c1_state_never_degrades :
    (∀ (s : VectorStore) (t : String) (e : List ℚ) (md : Option Metadata) (r : RemoteInsert),
      (add_text s t e md r).endee_available = s.endee_available) ∧
    (∀ (s : VectorStore) (ts : List String) (es : List (List ℚ))
      (mds : Option (List Metadata)) (r : RemoteInsert),
      (add_texts s ts es mds r).endee_available = s.endee_available) := by
  constructor
  · intro s t e md r
    unfold add_text
    dsimp only
    split <;> rfl
  · intro s ts es mds r
    unfold add_texts
    dsimp only
    split <;> rfl

/-- C1 counterexample: on a Connected store, an `insert_vectors` call that
raises leaves `is_using_endee()` equal to `true` — the state does not
transition to Unavailable as the claim asserts. -/
theorem c1_counterexample :
    is_using_endee connectedStore = true ∧
    is_using_endee (add_text connectedStore "t" [1] none .exn) = true :=
  ⟨rfl, rfl⟩

/-- C4 amended: after construction with `use_endee = True`, the state is
Connected **iff** the health check succeeded — the boolean returned by
`create_index` is ignored by `_try_connect_endee` (vector_store.py line 66),
so a failed index creation still yields Connected; any exception during the
attempt yields Unavailable. -/
theorem c4_connected_iff_health (name : String) (dim : ℕ) (o : ConnectOutcome) :
    (mkVectorStore name dim true o).endee_available = true ↔
      ∃ b, o = ConnectOutcome.healthTrue b := by
  cases o with
  | exn => simp [mkVectorStore, try_connect_endee]
  | healthFalse => simp [mkVectorStore, try_connect_endee]
  | healthTrue b => simp [mkVectorStore, try_connect_endee]

/-- C4 counterexample: health check succeeds but `create_index` returns
`False` — the store is still Connected, refuting "Connected only if both
succeed". -/
theorem c4_counterexample :
    (mkVectorStore "drona_ai" 384 true (.healthTrue false)).endee_available = true :=
  rfl

/-! ### Insert-path claims (C3, C6, C7) -/

/-- C3 amended: `add_text` performs no dimension validation whatsoever — a
vector whose length differs from `dimension` is appended to the in-memory
lists without any error; no `ConfigurationError` exists in the source. -/
theorem c3_no_dimension_check (s : VectorStore) (t : String) (e : List ℚ)
    (md : Option Metadata) (r : RemoteInsert) (hlen : e.length ≠ s.dimension) :
    (add_text s t e md r).texts = s.texts ++ [t] ∧
    (add_text s t e md r).embeddings = s.embeddings ++ [e] := by
  unfold add_text
  dsimp only
  constructor <;> (split <;> rfl)

/-- C3 witness: a length-3 vector inserted into a dimension-2 store is
appended anyway. -/
theorem c3_no_dimension_check_witness :
    (add_text (mkVectorStore "demo" 2 false .exn) "t" [1, 2, 3] none .ok).texts = ["t"] ∧
    (add_text (mkVectorStore "demo" 2 false .exn) "t" [1, 2, 3] none .ok).embeddings =
      [[1, 2, 3]] :=
  c3_no_dimension_check (mkVectorStore "demo" 2 false .exn) "t" [1, 2, 3] none .ok
    (by decide)

/-- C3 counterexample: inserting a length-3 vector into a dimension-2 store
does not fail and mutates the index — `count` becomes 1. -/
theorem c3_counterexample :
    (mkVectorStore "demo" 2 false .exn).dimension = 2 ∧
    count (add_text (mkVectorStore "demo" 2 false .exn) "t" [1, 2, 3] none .ok) = 1 :=
  ⟨rfl, rfl⟩

/-- C6: on a Connected store, every insert writes the records to the local
lists, and no remote outcome (success, `False`, or an exception) removes
them or aborts the call — the final `texts` / `embeddings` / `metadata`
contain all inserted records regardless of the remote result.  (The
embedding is total because every remote interaction in the source sits
inside `try`/`except` whose handler only prints.) -/
theorem c6_local_write_durable (s : VectorStore) (r : RemoteInsert)
    (hconn : s.endee_available = true) :
    (∀ (t : String) (e : List ℚ) (md : Option Metadata),
      (add_text s t e md r).texts = s.texts ++ [t] ∧
      (add_text s t e md r).embeddings = s.embeddings ++ [e] ∧
      (add_text s t e md r).metadata = s.metadata ++ [md.getD []]) ∧
    (∀ (ts : List String) (es : List (List ℚ)) (mds : Option (List Metadata)),
      (add_texts s ts es mds r).texts = s.texts ++ ts ∧
      (add_texts s ts es mds r).embeddings = s.embeddings ++ es ∧
      (add_texts s ts es mds r).metadata =
        s.metadata ++ mds.getD (List.replicate ts.length [])) := by
  constructor
  · intro t e md
    unfold add_text
    dsimp only
    refine ⟨?_, ?_, ?_⟩ <;> (split <;> rfl)
  · intro ts es mds
    unfold add_texts
    dsimp only
    refine ⟨?_, ?_, ?_⟩ <;> (split <;> rfl)

/-- C6 witness: on the Connected store, an insert whose remote call raises
and a batch insert whose remote call returns `False` both leave the records
in the local lists. -/
theorem c6_local_write_durable_witness :
    (add_text connectedStore "t" [1] none .exn).texts = ["t"] ∧
    (add_texts connectedStore ["u"] [[2]] none .failed).texts = ["u"] :=
  ⟨((c6_local_write_durable connectedStore .exn rfl).1 "t" [1] none).1,
   ((c6_local_write_durable connectedStore .failed rfl).2 ["u"] [[2]] none).1⟩

/-- C7 amended: `add_text` performs no zero-vector validation — the zero
vector is stored like any other, and its `np.linalg.norm` is 0, so the
normalization inside `_cosine_similarity` divides by zero for it instead of
the insert being rejected. -/
theorem c7_zero_vector_accepted (s : VectorStore) (t : String) (md : Option Metadata)
    (r : RemoteInsert) (d : ℕ) :
    (add_text s t (List.replicate d 0) md r).embeddings =
      s.embeddings ++ [List.replicate d 0] ∧
    pyNorm (List.replicate d 0) = 0 := by
  constructor
  · unfold add_text
    dsimp only
    split <;> rfl
  · unfold pyNorm
    have h : (List.replicate d (0 : ℚ)).map (fun x : ℚ => ((x : ℝ)) ^ 2) =
        List.replicate d (0 : ℝ) := by
      rw [List.map_replicate]
      norm_num
    rw [h, List.sum_replicate, smul_zero, Real.sqrt_zero]

/-- C7 counterexample: inserting the zero vector succeeds — the store's
count becomes 1 and the zero vector is stored, refuting "fails with an
error at insert time". -/
theorem c7_counterexample :
    count (add_text (mkVectorStore "demo" 2 false .exn) "z" [0, 0] none .ok) = 1 ∧
    (add_text (mkVectorStore "demo" 2 false .exn) "z" [0, 0] none .ok).embeddings =
      [[0, 0]] :=
  ⟨rfl, rfl⟩

/-! ### Search-path claims (C9, C10) -/

/-- C9: `search` on a store holding zero records returns `[]` immediately
(the length guard on vector_store.py line 159), for every remote outcome,
argsort oracle, query, and `top_k`, and cannot raise (the embedding is
total; every failure path inside the source method is caught). -/
theorem c9_empty_store_search (s : VectorStore) (remote : RemoteSearch)
    (argsort_result : List ℕ) (q : List ℚ) (top_k : ℕ) (h : count s = 0) :
    search s remote argsort_result q top_k = [] := by
  have h' : s.texts.length = 0 := h
  unfold search
  rw [if_pos h']

/-- C9 witness: a freshly constructed (empty) store returns `[]` for a
concrete query. -/
theorem c9_empty_store_search_witness :
    search (mkVectorStore "demo" 3 false .exn) (.ret none) [] [1, 2] 5 = [] :=
  c9_empty_store_search (mkVectorStore "demo" 3 false .exn) (.ret none) [] [1, 2] 5 rfl

theorem mem_updateAssoc {m : List (String × ℕ)} {k : String} {v : ℕ} {p : String × ℕ}
    (hp : p ∈ updateAssoc m k v) : p ∈ m ∨ p.2 = v := by
  unfold updateAssoc at hp
  split at hp
  · rcases List.mem_map.mp hp with ⟨q, hq, hpq⟩
    by_cases hk : q.1 = k
    · right
      rw [if_pos hk] at hpq
      rw [← hpq]
    · left
      rw [if_neg hk] at hpq
      rwa [← hpq]
  · rcases List.mem_append.mp hp with h | h
    · left
      exact h
    · right
      rw [List.mem_singleton.mp h]

theorem add_mappings_values (pairs : List (String × List ℚ)) :
    ∀ (m : List (String × ℕ)) (counter pos N : ℕ),
      (∀ p ∈ m, p.2 < N) → pos + pairs.length ≤ N →
      ∀ p ∈ (add_mappings_loop m counter pairs pos).1, p.2 < N := by
  induction pairs with
  | nil =>
    intro m counter pos N hm _ p hp
    exact hm p hp
  | cons hd tl ih =>
    intro m counter pos N hm hlen p hp
    obtain ⟨t, e⟩ := hd
    simp only [add_mappings_loop] at hp
    refine ih _ (counter + 1) (pos + 1) N ?_ ?_ p hp
    · intro q hq
      rcases mem_updateAssoc hq with h | h
      · exact hm q h
      · rw [h]
        simp only [List.length_cons] at hlen
        omega
    · simp only [List.length_cons] at hlen
      omega

/-- C10: `clear` empties `texts` / `embeddings` / `metadata` and resets the
counter but leaves `id_to_index` intact; the invariant "every mapped value
is a valid index into `texts`" is preserved by `add_text` and `add_texts`,
is violated after `clear` on a store that inserted while Connected, and a
subsequent Connected search receiving such a stale id from the remote
resolves it to an out-of-range index into `texts` (an `IndexError` inside
the mapping loop, `.error` in the embedding). -/
theorem c10_stale_id_map :
    (∀ (s : VectorStore) (t : String) (e : List ℚ) (md : Option Metadata) (r : RemoteInsert),
      id_index_invariant s → id_index_invariant (add_text s t e md r)) ∧
    (∀ (s : VectorStore) (ts : List String) (es : List (List ℚ))
      (mds : Option (List Metadata)) (r : RemoteInsert),
      id_index_invariant s → id_index_invariant (add_texts s ts es mds r)) ∧
    (∀ s : VectorStore, (clear s).texts = [] ∧ (clear s).embeddings = [] ∧
      (clear s).metadata = [] ∧ (clear s).id_counter = 0 ∧
      (clear s).id_to_index = s.id_to_index) ∧
    ¬ id_index_invariant (clear staleStore) ∧
    map_endee_results (clear staleStore) [(generate_id "hello" 0, 0)] 3 =
      .error () := by
  refine ⟨?_, ?_, ?_, ?_, ?_⟩
  · intro s t e md r hs
    unfold add_text
    dsimp only
    split
    · intro p hp
      simp only [List.length_append, List.length_singleton]
      rcases mem_updateAssoc hp with h | h
      · have := hs p h
        omega
      · omega
    · intro p hp
      have := hs p hp
      simp only [List.length_append, List.length_singleton]
      omega
  · intro s ts es mds r hs
    unfold add_texts
    dsimp only
    split
    · intro p hp
      simp only [List.length_append]
      refine add_mappings_values (ts.zip es) s.id_to_index s.id_counter s.texts.length
        (s.texts.length + ts.length) ?_ ?_ p hp
      · intro q hq
        have := hs q hq
        omega
      · have hz : (ts.zip es).length = min ts.length es.length := List.length_zip ts es
        omega
    · intro p hp
      have := hs p hp
      simp only [List.length_append]
      omega
  · intro s
    exact ⟨rfl, rfl, rfl, rfl, rfl⟩
  · unfold id_index_invariant
    decide
  · rfl

/-- C10 witness: the invariant holds after a further `add_text` on the
connected one-record store (discharging the preservation hypothesis on a
concrete store). -/
theorem c10_stale_id_map_witness :
    id_index_invariant (add_text staleStore "x" [2] none .ok) :=
  c10_stale_id_map.1 staleStore "x" [2] none .ok
    (by unfold id_index_invariant; decide)

/-! ### Ranking claims (C8) -/

theorem c8_pyNorm_eval : pyNorm [1, 0] = 1 := by
  unfold pyNorm
  have h : (([1, 0] : List ℚ).map (fun x : ℚ => ((x : ℝ)) ^ 2)).sum = 1 := by
    norm_num
  rw [h, Real.sqrt_one]

theorem c8_sims_eval : cosine_similarity [1, 0] c8Store.embeddings = [1, 1] := by
  have hemb : c8Store.embeddings = [[(1 : ℚ), 0], [(1 : ℚ), 0]] := rfl
  rw [hemb]
  unfold cosine_similarity
  simp only [List.map_cons, List.map_nil]
  have hnv : normalizeVec [1, 0] = [1, 0] := by
    unfold normalizeVec
    rw [c8_pyNorm_eval]
    norm_num
  rw [hnv]
  unfold dotR
  norm_num

theorem c8_spec_eval : argsortSpec (cosine_similarity [1, 0] c8Store.embeddings) [0, 1] := by
  unfold argsortSpec
  rw [c8_sims_eval]
  constructor
  · decide
  · have hm : (([0, 1] : List ℕ).map (fun i => ([(1 : ℝ), 1]).getD i 0)) = [1, 1] := rfl
    rw [hm]
    norm_num [List.pairwise_cons]

/-- C8 amended: for every index order `np.argsort` may legitimately return
(any ascending permutation of the similarities — the default quicksort
guarantees nothing about the relative order of equal similarities), the
in-memory search output is the reversed, truncated selection, sorted by
weakly descending cosine similarity.  An earliest-first order on equal
similarities is **not** a property the program guarantees, and in the
two-record tie case the run numpy actually produces returns the
later-inserted record first (see the counterexample). -/
theorem c8_descending_similarity (s : VectorStore) (q : List ℚ) (top_k : ℕ)
    (idxs : List ℕ) (h : argsortSpec (cosine_similarity q s.embeddings) idxs) :
    search_in_memory s idxs q top_k = ((idxs.reverse).take top_k).map (fun i =>
      (s.texts.getD i "", (cosine_similarity q s.embeddings).getD i 0,
        s.metadata.getD i [])) ∧
    ((idxs.reverse).take top_k).Pairwise (fun i j =>
      (cosine_similarity q s.embeddings).getD j 0 ≤
        (cosine_similarity q s.embeddings).getD i 0) := by
  refine ⟨rfl, ?_⟩
  have h1 : idxs.Pairwise (fun i j =>
      (cosine_similarity q s.embeddings).getD i 0 ≤
        (cosine_similarity q s.embeddings).getD j 0) :=
    List.pairwise_map.mp h.2
  have h2 : (idxs.reverse).Pairwise (fun i j =>
      (cosine_similarity q s.embeddings).getD j 0 ≤
        (cosine_similarity q s.embeddings).getD i 0) :=
    List.pairwise_reverse.mpr h1
  exact h2.sublist (List.take_sublist _ _)

/-- C8 witness: the amended theorem applied to the concrete two-record tie
store with the argsort output `[0, 1]`, discharging the `argsortSpec`
hypothesis by evaluation. -/
theorem c8_descending_similarity_witness :
    argsortSpec (cosine_similarity [1, 0] c8Store.embeddings) [0, 1] ∧
    ((([0, 1] : List ℕ).reverse).take 3).Pairwise (fun i j =>
      (cosine_similarity [1, 0] c8Store.embeddings).getD j 0 ≤
        (cosine_similarity [1, 0] c8Store.embeddings).getD i 0) :=
  ⟨c8_spec_eval, (c8_descending_similarity c8Store [1, 0] 3 [0, 1] c8_spec_eval).2⟩

/-- C8 counterexample: records `"a"` then `"b"` are inserted in that order
with identical embeddings, so both have cosine similarity 1 to the query.
`[0, 1]` satisfies the argsort contract on the tied similarities `[1, 1]`
and is what numpy returns at this array size (below the quicksort cutoff it
insertion-sorts, preserving input order); the `[::-1]` reversal then makes
the in-memory search return `"b"` (inserted later) **before** `"a"`,
refuting "the record inserted earlier appears before the record inserted
later" on equal similarity. -/
theorem c8_counterexample :
    cosine_similarity [1, 0] c8Store.embeddings = [1, 1] ∧
    argsortSpec (cosine_similarity [1, 0] c8Store.embeddings) [0, 1] ∧
    (search_in_memory c8Store [0, 1] [1, 0] 3).map (fun r => r.1) = ["b", "a"] :=
  ⟨c8_sims_eval, c8_spec_eval, rfl⟩

end Drona
